import Mathlib

/-!
Verification of the VidSense retrieval-and-ranking core.

Shallow embedding of the search/RAG routing logic
(`services/search/app/routes_search.py`) and the cross-encoder reranker
(`backend/app/reranker.py`).  Machine floats of the source are modelled by
`ℚ` where only ordering and equality matter, and by `ℝ` where the source
applies `math.exp` (softmax normalisation).  The external collaborators
(embedding model, pgvector distance operator, pairwise scoring model, the
generative answer model) are opaque services in the source and enter the
embedding as function parameters.  Fallible operations return `Except`.
-/

set_option maxHeartbeats 1000000
set_option synthInstance.maxSize 2000
set_option linter.unusedVariables false

instance {ε α : Type} [DecidableEq ε] [DecidableEq α] : DecidableEq (Except ε α)
  | .error e, .error f =>
    if h : e = f then isTrue (by rw [h]) else isFalse (by simp [h])
  | .error _, .ok _ => isFalse (by simp)
  | .ok _, .error _ => isFalse (by simp)
  | .ok x, .ok y =>
    if h : x = y then isTrue (by rw [h]) else isFalse (by simp [h])

/- ============================================================
   Cross-encoder reranker (`backend/app/reranker.py`, `rerank`)
   ============================================================ -/

/-- Document record handed to `rerank`: the dict built in `search_videos`
(lines 168-180 of `routes_search.py`).  Those dicts carry no
`rerank_score` key when they enter `rerank`; the field is `none` until the
reranker assigns it (`d["rerank_score"] = float(s)` resp. `setdefault`). -/
structure Doc where
  video_id : String
  text : String
  rerank_score : Option ℚ
deriving DecidableEq, Repr

/-- Score that Python `x.get("rerank_score", 0.0)` reads: the stored score,
defaulting to `0`. -/
def scoreOf (d : Doc) : ℚ :=
  d.rerank_score.getD 0

/- Kernel-reducible counterparts of the Python string primitives.  The
built-in `String` functions use well-founded recursion over byte
positions and do not reduce inside `decide`, so the embedding works on the
underlying character list (Python strings index by code point, matching
`List Char`). -/

/-- Character count of a string, as Python `len`. -/
def strLen (s : String) : Nat :=
  s.data.length

/-- First `n` characters of a string, as a Python slice `s[:n]`. -/
def strTake (s : String) (n : Nat) : String :=
  ⟨s.data.take n⟩

/-- Lower-cased string, as Python `s.lower()`. -/
def lowerStr (s : String) : String :=
  ⟨s.data.map Char.toLower⟩

/-- Splitting on whitespace, as Python `s.split()` (possible empty chunks
are harmless for the callers, which only look at words longer than 2). -/
def splitWsAux (cur : List Char) : List Char → List (List Char)
  | [] => [cur.reverse]
  | c :: t => if c.isWhitespace then cur.reverse :: splitWsAux [] t else splitWsAux (c :: cur) t

/-- Substring test on character lists: `pat` occurs contiguously in the
list.  Models Python `text.find(word) >= 0`. -/
def hasSubstr (pat : List Char) : List Char → Bool
  | [] => pat.isEmpty
  | c :: t => pat.isPrefixOf (c :: t) || hasSubstr pat t

/-- Window selection of `rerank` (reranker.py lines 57-89): scan the
lower-cased query words; if any word longer than 2 characters occurs in the
lower-cased text, the full text is used (the `[start:end]` slice is
commented out in the source); otherwise the first 4000 characters. -/
def bestSection (query fullText : String) : String :=
  if (splitWsAux [] (lowerStr query).data).any
      (fun w => decide (w.length > 2) && hasSubstr w (lowerStr fullText).data) then
    fullText
  else
    strTake fullText 4000

/-- Score attachment of the success path (reranker.py lines 121-122): the
pairwise model score for `(query, bestSection query text)` is written into
the document.  `ms` is the opaque cross-encoder model. -/
def scoreAttach (ms : String → String → ℚ) (query : String) (d : Doc) : Doc :=
  { d with rerank_score := some (ms query (bestSection query d.text)) }

/-- Comparison used by `sorted(docs, key=lambda x: x.get("rerank_score", 0.0),
reverse=True)`: `a` may come before `b` when the score of `b` is at most the
score of `a`. -/
abbrev descLe (a b : Doc) : Prop :=
  scoreOf b ≤ scoreOf a

instance : IsTotal Doc descLe :=
  ⟨fun a b => le_total (scoreOf b) (scoreOf a)⟩

instance : IsTrans Doc descLe :=
  ⟨fun _ _ _ h1 h2 => le_trans h2 h1⟩

/-- Embedding of `rerank` (reranker.py lines 34-148).  `modelOk` tells
whether the pairwise model loads and scores without raising; `ms` is the
opaque scoring model.  On success every document receives its score and
the batch is sorted by score descending with the stable Python `sorted`
(modelled by the stable `List.insertionSort`); on failure the original ANN
order is returned and `setdefault` writes `0.0` into every document that
does not already carry a score. -/
def rerank (modelOk : Bool) (ms : String → String → ℚ) (query : String)
    (docs : List Doc) : List Doc :=
  if docs.isEmpty then []
  else if modelOk then
    List.insertionSort descLe (docs.map (scoreAttach ms query))
  else
    docs.map (fun d => { d with rerank_score := some (d.rerank_score.getD 0) })

/- ============================================================
   Softmax normalisation (`routes_search.py`, lines 187-202)
   ============================================================ -/

/-- Softmax of `search_videos` (lines 194-201): every score is mapped to
`exp s / Σ exp`.  The transcendental `math.exp` is supplied as the
parameter `f`; the correctness theorems instantiate it with `Real.exp`. -/
def softmax {K : Type} [Field K] (f : K → K) (l : List K) : List K :=
  l.map (fun s => f s / (l.map f).sum)

/- ============================================================
   Feedback store (`routes_search.py`, feedback endpoints)
   ============================================================ -/

/-- Row of the `retrieval_feedback` table.  `query_embedding` is nullable
in the schema (`WHERE query_embedding IS NOT NULL` in the similar-queries
SQL); rows written through `save_retrieval_feedback` always carry one. -/
structure FeedbackRecord where
  query : String
  query_embedding : Option (List ℚ)
  video_id : String
  feedback : String
deriving DecidableEq, Repr

/-- Rows of the store holding feedback for the pair `(q, v)`: the filter
`RetrievalFeedback.query == payload.query, RetrievalFeedback.video_id ==
payload.video_id` used by the save/delete endpoints. -/
def pairRecords (store : List FeedbackRecord) (q v : String) : List FeedbackRecord :=
  store.filter (fun r => r.query == q && r.video_id == v)

/-- Update applied when `save_retrieval_feedback` finds an existing row
(`.first()`): the first matching record gets the new label and a fresh
query embedding; every other record is untouched. -/
def updateFirstPair (q v fb : String) (emb : List ℚ) :
    List FeedbackRecord → List FeedbackRecord
  | [] => []
  | r :: rest =>
    if r.query == q && r.video_id == v then
      { r with feedback := fb, query_embedding := some emb } :: rest
    else
      r :: updateFirstPair q v fb emb rest

/-- Embedding of `save_retrieval_feedback` (routes_search.py lines
671-721): validate the label, embed the query with the opaque `embed`
model, then update the first existing `(query, video_id)` row or append a
new one. -/
def save_feedback (embed : String → List ℚ) (store : List FeedbackRecord)
    (q v fb : String) : Except String (List FeedbackRecord) :=
  if !(fb == "good" || fb == "bad") then
    .error ("Feedback must be good or bad")
  else if (pairRecords store q v).isEmpty then
    .ok (store ++ [{ query := q, query_embedding := some (embed q), video_id := v, feedback := fb }])
  else
    .ok (updateFirstPair q v fb (embed q) store)

/- ============================================================
   Similar queries (`routes_search.py`, `find_similar_queries`)
   ============================================================ -/

/-- Entry of the similar-queries response. -/
structure SimilarQuery where
  query : String
  similarity : ℚ
  good_video_ids : List String
  bad_video_ids : List String
deriving DecidableEq, Repr

/-- Python `s.strip().lower()`, used for the exact-same-query test. -/
def normText (s : String) : String :=
  ⟨(((s.data.dropWhile Char.isWhitespace).reverse.dropWhile Char.isWhitespace).reverse).map
    Char.toLower⟩

/-- Pairs `(query, similarity)` selected by the similar-queries SQL before
`DISTINCT`: one pair per row whose `query_embedding` is non-null.  `simf`
is the opaque pgvector similarity `1 - (query_embedding <=> :query_vec)`
against the embedding of the current request. -/
def simPairs (simf : List ℚ → ℚ) (store : List FeedbackRecord) : List (String × ℚ) :=
  store.filterMap (fun r => r.query_embedding.map (fun e => (r.query, simf e)))

/-- Similarity threshold `0.85` of the similar-queries SQL, spelled
`mkRat` so that it reduces inside `decide`. -/
def simThreshold : ℚ :=
  mkRat 85 100

/-- Distinct qualifying pairs: `WHERE ... similarity > 0.85` then
`SELECT DISTINCT`. -/
def qualifyingPairs (simf : List ℚ → ℚ) (store : List FeedbackRecord) : List (String × ℚ) :=
  ((simPairs simf store).filter (fun p => decide (simThreshold < p.2))).dedup

/-- Comparison of `ORDER BY similarity DESC` on the selected pairs. -/
abbrev simDescLe (a b : String × ℚ) : Prop :=
  b.2 ≤ a.2

instance : IsTotal (String × ℚ) simDescLe :=
  ⟨fun a b => le_total b.2 a.2⟩

instance : IsTrans (String × ℚ) simDescLe :=
  ⟨fun _ _ _ h1 h2 => le_trans h2 h1⟩

/-- Qualifying pairs ordered by similarity descending (`ORDER BY
similarity DESC`; ties are left implementation-defined by SQL, the model
fixes one stable order). -/
def rankedPairs (simf : List ℚ → ℚ) (store : List FeedbackRecord) : List (String × ℚ) :=
  List.insertionSort simDescLe (qualifyingPairs simf store)

/-- The SQL `LIMIT 5` applied after ordering. -/
def topFivePairs (simf : List ℚ → ℚ) (store : List FeedbackRecord) : List (String × ℚ) :=
  (rankedPairs simf store).take 5

/-- Feedback rows fetched for one past query (`SELECT video_id, feedback
FROM retrieval_feedback WHERE query = :query`). -/
def feedbackRowsFor (store : List FeedbackRecord) (q : String) : List FeedbackRecord :=
  store.filter (fun r => r.query == q)

/-- Video ids the past query judged good. -/
def goodIds (store : List FeedbackRecord) (q : String) : List String :=
  ((feedbackRowsFor store q).filter (fun r => r.feedback == "good")).map (·.video_id)

/-- Video ids the past query judged bad. -/
def badIds (store : List FeedbackRecord) (q : String) : List String :=
  ((feedbackRowsFor store q).filter (fun r => r.feedback == "bad")).map (·.video_id)

/-- Response entry built for one retained pair. -/
def mkSimilarQuery (store : List FeedbackRecord) (p : String × ℚ) : SimilarQuery :=
  { query := p.1, similarity := p.2,
    good_video_ids := goodIds store p.1, bad_video_ids := badIds store p.1 }

/-- Embedding of `find_similar_queries` (routes_search.py lines 814-884):
empty queries short-circuit; otherwise the five highest-similarity
distinct `(query, similarity)` pairs above `0.85` are fetched, any pair
whose trimmed lower-cased text equals that of the input is skipped, and each
survivor is annotated with the good/bad video ids of its query. -/
def find_similar_queries (simf : List ℚ → ℚ) (inputQuery : String)
    (store : List FeedbackRecord) : List SimilarQuery :=
  if (inputQuery.data.dropWhile Char.isWhitespace).isEmpty then []
  else
    ((topFivePairs simf store).filter
        (fun p => !(normText p.1 == normText inputQuery))).map (mkSimilarQuery store)

/- ============================================================
   Document store tables
   ============================================================ -/

/-- Row of the `videos` table, restricted to the columns the search/RAG
routes read. -/
structure Video where
  id : String
  title : Option String
  author : Option String
  url : String
  source : Option String
  description : Option String
  media_path : Option String
deriving DecidableEq, Repr

/-- Row of the `transcripts` table (`text` and `embedding` are nullable;
`WHERE t.embedding IS NOT NULL` guards the ANN query). -/
structure Transcript where
  video_id : String
  text : Option String
  embedding : Option (List ℚ)
deriving DecidableEq, Repr

/-- Row of the `collections` table, restricted to the columns
`rag_answer` reads (`db.get(Collection, id)` followed by `.query`). -/
structure Collection where
  id : String
  query : String
deriving DecidableEq, Repr

/-- Database state visible to the search service. -/
structure DB where
  videos : List Video
  transcripts : List Transcript
  feedback : List FeedbackRecord
  collections : List Collection
deriving Repr

/-- Primary-key lookup `db.get(Video, video_id)`. -/
def lookupVideo (db : DB) (vid : String) : Option Video :=
  db.videos.find? (fun v => v.id == vid)

/-- Primary-key lookup `db.get(Transcript, video_id)`. -/
def lookupTranscript (db : DB) (vid : String) : Option Transcript :=
  db.transcripts.find? (fun t => t.video_id == vid)

/- ============================================================
   ANN retrieval (`search_videos`, stage 1, lines 112-152)
   ============================================================ -/

/-- Row produced by the ANN SQL: transcript joined with its video plus the
cosine distance and `1 - distance` similarity.  `dist` is the opaque
pgvector operator `t.embedding <=> :query_vec` for the current query
vector. -/
structure Candidate where
  video_id : String
  title : Option String
  author : Option String
  url : String
  source : Option String
  description : Option String
  media_path : Option String
  text : Option String
  ann_distance : ℚ
  similarity_score : ℚ
deriving DecidableEq, Repr

/-- Joined rows eligible for ANN search: `FROM transcripts t JOIN videos v
ON t.video_id = v.id WHERE t.embedding IS NOT NULL`. -/
def annRows (db : DB) : List (Transcript × Video × List ℚ) :=
  db.transcripts.filterMap (fun t =>
    match t.embedding, lookupVideo db t.video_id with
    | some e, some v => some (t, v, e)
    | _, _ => none)

/-- Candidate built from one joined row. -/
def mkCandidate (dist : List ℚ → ℚ) (r : Transcript × Video × List ℚ) : Candidate :=
  { video_id := r.1.video_id, title := r.2.1.title, author := r.2.1.author,
    url := r.2.1.url, source := r.2.1.source, description := r.2.1.description,
    media_path := r.2.1.media_path, text := r.1.text,
    ann_distance := dist r.2.2, similarity_score := 1 - dist r.2.2 }

/-- Comparison of `ORDER BY t.embedding <=> :query_vec` (ascending cosine
distance). -/
abbrev distAscLe (a b : Candidate) : Prop :=
  a.ann_distance ≤ b.ann_distance

instance : IsTotal Candidate distAscLe :=
  ⟨fun a b => le_total a.ann_distance b.ann_distance⟩

instance : IsTrans Candidate distAscLe :=
  ⟨fun _ _ _ h1 h2 => le_trans h1 h2⟩

/-- Embedding of the stage-1 ANN search of `search_videos` (lines
112-152).  `efFails` says whether `SET hnsw.ef_search = 80` raises: the
statement sits in an inner `try/except: pass`, so both outcomes return the
same rows.  `dbFails` says whether the main query raises, which aborts the
call with a retrieval failure (`HTTPException 500`). -/
def annSearch (dist : List ℚ → ℚ) (db : DB) (k : ℕ) (efFails dbFails : Bool) :
    Except String (List Candidate) :=
  if dbFails then
    .error ("Database search failed")
  else if efFails then
    .ok ((List.insertionSort distAscLe ((annRows db).map (mkCandidate dist))).take k)
  else
    .ok ((List.insertionSort distAscLe ((annRows db).map (mkCandidate dist))).take k)

/- ============================================================
   RAG orchestration (`rag_answer`, lines 240-557)
   ============================================================ -/

/-- Hit of the two-stage search endpoint, the shape `rag_answer` consumes
for fresh results (`SearchHit` in the source). -/
structure SearchHit where
  video_id : String
  title : Option String
  author : Option String
  url : String
  score : ℚ
  snippet : String
  media_path : Option String
  source : Option String
  description : Option String
deriving DecidableEq, Repr

/-- Entry of the excluded-videos transparency list. -/
structure ExcludedVideo where
  video_id : String
  title : Option String
  reason : String
  source_reference : Option String
deriving DecidableEq, Repr

/-- Source entry of the RAG response. -/
structure RAGSource where
  video_id : String
  title : Option String
  author : Option String
  url : String
  snippet : String
  score : ℚ
  source_type : String
  source_reference : Option String
deriving DecidableEq, Repr

/-- RAG response.  `generatorContext` records the context block handed to
the external Gemini generator, `none` when generation was skipped (the
empty-result terminal state). -/
structure RAGResult where
  query : String
  answer : String
  sources : List RAGSource
  excluded_videos : List ExcludedVideo
  generatorContext : Option String
deriving DecidableEq, Repr

/-- Insertion-ordered dict write `d[k] = v` (Python dicts keep the first
insertion position and overwrite the value). -/
def dictInsert (d : List (String × String)) (k v : String) : List (String × String) :=
  if d.any (fun p => p.1 == k) then
    d.map (fun p => if p.1 == k then (k, v) else p)
  else
    d ++ [(k, v)]

/-- Insertion-ordered set update `s.update(xs)` on video-id sets. -/
def setUnion (s : List String) (xs : List String) : List String :=
  xs.foldl (fun acc x => if acc.contains x then acc else acc ++ [x]) s

/-- Step 1 of `rag_answer` (lines 263-293): walk the supplied collection
ids, and for each stored collection partition the feedback recorded under
the query of that collection into the liked/disliked dicts
(`video_id -> collection_query`). -/
def collectionFeedbackDicts (db : DB) (ids : List String) :
    List (String × String) × List (String × String) :=
  ids.foldl (fun acc cid =>
    match db.collections.find? (fun c => c.id == cid) with
    | none => acc
    | some c =>
      (feedbackRowsFor db.feedback c.query).foldl (fun acc2 fb =>
        if fb.feedback == "good" then (dictInsert acc2.1 fb.video_id c.query, acc2.2)
        else if fb.feedback == "bad" then (acc2.1, dictInsert acc2.2 fb.video_id c.query)
        else acc2) acc) ([], [])

/-- The `liked_from_collections` dict of step 1. -/
def likedFromCollections (db : DB) (ids : List String) : List (String × String) :=
  (collectionFeedbackDicts db ids).1

/-- The `disliked_from_collections` dict of step 1. -/
def dislikedFromCollections (db : DB) (ids : List String) : List (String × String) :=
  (collectionFeedbackDicts db ids).2

/-- Step 2 of `rag_answer`: the similar-queries lookup for the request
query, over the feedback store. -/
def simqsOf (simf : List ℚ → ℚ) (db : DB) (query : String) : List SimilarQuery :=
  find_similar_queries simf query db.feedback

/-- The `liked_from_queries` set of step 2. -/
def likedFromQueries (simqs : List SimilarQuery) : List String :=
  simqs.foldl (fun acc sq => setUnion acc sq.good_video_ids) []

/-- The `disliked_from_queries` set of step 2. -/
def dislikedFromQueries (simqs : List SimilarQuery) : List String :=
  simqs.foldl (fun acc sq => setUnion acc sq.bad_video_ids) []

/-- The exclusion set `exclude_video_ids` (lines 311-316): union of the
four step-1/step-2 sets, represented as a list queried by membership. -/
def excludeIdsOf (simf : List ℚ → ℚ) (db : DB) (query : String) (ids : List String) :
    List String :=
  (likedFromCollections db ids).map (·.1) ++
  (dislikedFromCollections db ids).map (·.1) ++
  likedFromQueries (simqsOf simf db query) ++
  dislikedFromQueries (simqsOf simf db query)

/-- Title shown for an excluded video: `video.title if video else None`. -/
def titleOf (db : DB) (vid : String) : Option String :=
  (lookupVideo db vid).bind (fun v => v.title)

/-- The excluded-videos transparency list (lines 324-351): entries for the
liked and disliked collection dicts and for query-disliked ids not already
disliked via a collection.  Ids that are only in `liked_from_queries`
receive no entry. -/
def excludedListOf (simf : List ℚ → ℚ) (db : DB) (query : String) (ids : List String) :
    List ExcludedVideo :=
  (likedFromCollections db ids).map (fun p =>
    { video_id := p.1, title := titleOf db p.1,
      reason := "liked_in_collection", source_reference := some p.2 }) ++
  (dislikedFromCollections db ids).map (fun p =>
    { video_id := p.1, title := titleOf db p.1,
      reason := "disliked_in_collection", source_reference := some p.2 }) ++
  ((dislikedFromQueries (simqsOf simf db query)).filter
      (fun v => !((dislikedFromCollections db ids).any (fun p => p.1 == v)))).map (fun v =>
    { video_id := v, title := titleOf db v,
      reason := "bad_feedback", source_reference := some ("similar_query") })

/-- Python `text[:200] + "..." if len(text) > 200 else text`. -/
def snippetOfText (s : String) : String :=
  if strLen s > 200 then strTake s 200 ++ "..." else s

/-- Hit synthesised for a feedback-origin source (steps 4 and 5): score
`1.0` and a transcript-prefix snippet. -/
def mkFeedbackHit (v : Video) (t : Transcript) : SearchHit :=
  { video_id := v.id, title := v.title, author := v.author, url := v.url,
    score := 1, snippet := snippetOfText (t.text.getD ("")),
    media_path := v.media_path, source := v.source, description := v.description }

/-- Step 4 (lines 362-384): one `collection` source per liked collection
video that still has both a video row and a transcript row. -/
def sourcesFromCollections (db : DB) (liked : List (String × String)) :
    List (SearchHit × String × Option String) :=
  liked.filterMap (fun p =>
    match lookupVideo db p.1, lookupTranscript db p.1 with
    | some v, some t => some (mkFeedbackHit v t, "collection", some p.2)
    | _, _ => none)

/-- Step 5 (lines 388-412): one `feedback` source per query-liked video
not already covered by a collection, again requiring video and
transcript rows. -/
def sourcesFromQueries (db : DB) (liked : List (String × String)) (likedQ : List String) :
    List (SearchHit × String × Option String) :=
  (likedQ.filter (fun vid => !(liked.any (fun p => p.1 == vid)))).filterMap (fun vid =>
    match lookupVideo db vid, lookupTranscript db vid with
    | some v, some t => some (mkFeedbackHit v t, "feedback", some ("similar_query"))
    | _, _ => none)

/-- The step-3 exclusion filter on the fresh search hits (line 359). -/
def filteredHits (hits : List SearchHit) (excl : List String) : List SearchHit :=
  hits.filter (fun h => !(excl.contains h.video_id))

/-- Priority merge of step 5 (lines 416-433): collection sources, then
query-feedback sources, then filtered fresh search hits. -/
def allSourcesOf (db : DB) (hits : List SearchHit) (liked : List (String × String))
    (likedQ : List String) (excl : List String) :
    List (SearchHit × String × Option String) :=
  sourcesFromCollections db liked ++ sourcesFromQueries db liked likedQ ++
    (filteredHits hits excl).map (fun h => (h, "search", none))

/-- The `top_sources = all_sources[:k_final]` of line 436, computed from
the request inputs.  `hits` is the outcome of the fresh two-stage search
(step 3), passed in because its scores flow through the opaque embedding,
pgvector and cross-encoder models. -/
def topSourcesOf (simf : List ℚ → ℚ) (hits : List SearchHit) (db : DB) (query : String)
    (k : ℕ) (ids : List String) : List (SearchHit × String × Option String) :=
  (allSourcesOf db hits (likedFromCollections db ids)
    (likedFromQueries (simqsOf simf db query)) (excludeIdsOf simf db query ids)).take k

/-- Transcript text used for one context source (lines 472-484): the full
stored transcript when present, otherwise the snippet of the hit. -/
def sourceText (db : DB) (h : SearchHit) : String :=
  match lookupTranscript db h.video_id with
  | some t =>
    match t.text with
    | some s => s
    | none => h.snippet
  | none => h.snippet

/-- Truncation of very long transcripts (lines 487-490). -/
def truncateContext (s : String) : String :=
  if strLen s > 3000 then strTake s 3000 ++ "..." else s

/-- Python `hit.title or "Untitled"` (falsy also on the empty string). -/
def displayTitle (h : SearchHit) : String :=
  match h.title with
  | some s => if s = "" then ("Untitled") else s
  | none => "Untitled"

/-- Python `"\n\n".join(parts)`. -/
def joinSep (sep : String) : List String → String
  | [] => ""
  | [x] => x
  | x :: xs => x ++ sep ++ joinSep sep xs

/-- The numbered context block of step 6 (lines 452-506). -/
def contextOf (db : DB) (tops : List (SearchHit × String × Option String)) : String :=
  joinSep ("\n\n") (tops.enum.map (fun p =>
    "[Source " ++ toString (p.1 + 1) ++ "] " ++ displayTitle p.2.1 ++ "\n" ++
      truncateContext (sourceText db p.2.1) ++ "\n"))

/-- RAG source record returned for one selected source (lines 494-503). -/
def toRAGSource (p : SearchHit × String × Option String) : RAGSource :=
  { video_id := p.1.video_id, title := p.1.title, author := p.1.author, url := p.1.url,
    snippet := p.1.snippet, score := p.1.score,
    source_type := p.2.1, source_reference := p.2.2 }

/-- The fixed empty-result answer of line 442. -/
def noInfoMessage : String :=
  "I couldn\x27t find any relevant information in the video database to answer your question."

/-- The generation prompt of lines 510-524. -/
def ragPrompt (query context : String) : String :=
  "You are a helpful assistant that answers questions based on video transcripts." ++
    "\n\nQuestion: " ++ query ++ "\n\nContext (from video transcripts):\n" ++ context ++
    "\n\nInstructions:\n- Answer the question using ONLY information from the provided sources" ++
    "\n- Cite sources using inline references like [1], [2], etc." ++
    "\n- Be concise but informative" ++
    "\n- If the sources don\x27t contain enough information, say so" ++
    "\n- Use natural language and proper formatting\n\nAnswer:"

/-- Embedding of `rag_answer` (lines 240-557).  `gen` is the opaque
generative answer model applied to the assembled prompt; `simf` the opaque
similarity of stored feedback embeddings to the embedding of the request;
`hits` the fresh two-stage search result of step 3.  An empty (after
stripping) query is rejected; an empty merged source list short-circuits
to the fixed no-information answer without invoking the generator;
otherwise the generated answer is returned together with the selected
sources and the transparency list. -/
def rag (gen : String → String) (simf : List ℚ → ℚ) (hits : List SearchHit) (db : DB)
    (query : String) (k : ℕ) (ids : List String) : Except String RAGResult :=
  if (query.data.dropWhile Char.isWhitespace).isEmpty then
    .error ("Query cannot be empty")
  else if (topSourcesOf simf hits db query k ids).isEmpty then
    .ok { query := query, answer := noInfoMessage, sources := [],
          excluded_videos := excludedListOf simf db query ids, generatorContext := none }
  else
    .ok { query := query,
          answer := gen (ragPrompt query (contextOf db (topSourcesOf simf hits db query k ids))),
          sources := (topSourcesOf simf hits db query k ids).map toRAGSource,
          excluded_videos := excludedListOf simf db query ids,
          generatorContext := some (contextOf db (topSourcesOf simf hits db query k ids)) }

/- ============================================================
   Concrete instances used by counterexamples and witnesses
   ============================================================ -/

/-- Generator stub returning a fixed answer. -/
def genFixed : String → String :=
  fun _ => "A"

/-- Similarity stub: nothing is similar. -/
def zeroSimf : List ℚ → ℚ :=
  fun _ => 0

/-- Similarity stub reading the stored one-component embedding. -/
def headSimf : List ℚ → ℚ :=
  fun e => e.headD 0

/-- Embedding stub for feedback saves. -/
def embed0 : String → List ℚ :=
  fun _ => [0]

/-- Scoring stub for the reranker fallback witness. -/
def msZero : String → String → ℚ :=
  fun _ _ => 0

/-- Scoring stub: text length, giving distinct scores. -/
def msLen : String → String → ℚ :=
  fun _ s => (strLen s : ℚ)

/-- Default used to read an `Except.ok` payload in closed statements. -/
def defaultRAGResult : RAGResult :=
  { query := "", answer := "", sources := [], excluded_videos := [], generatorContext := none }

/-- Fallback witness document without a score. -/
def docN : Doc :=
  { video_id := "v", text := "t", rerank_score := none }

/-- Two-document batch for the rerank-order witness. -/
def docsC6 : List Doc :=
  [{ video_id := "a", text := "x", rerank_score := none },
   { video_id := "b", text := "xyzz", rerank_score := none }]

/-- Database of the C1 counterexample: one collection whose query has one
good feedback record for `v1`, and `v1` has video and transcript rows. -/
def dbC1 : DB :=
  { videos := [{ id := "v1", title := some ("T1"), author := none, url := "u",
                 source := none, description := none, media_path := none }],
    transcripts := [{ video_id := "v1", text := some ("hello"), embedding := none }],
    feedback := [{ query := "q0", query_embedding := some [0], video_id := "v1",
                   feedback := "good" }],
    collections := [{ id := "c1", query := "q0" }] }

/-- RAG outcome of the C1 counterexample run. -/
def resC1 : RAGResult :=
  (rag genFixed zeroSimf [] dbC1 ("what") 5 ["c1"]).toOption.getD defaultRAGResult

/-- Empty database for the C1 witness run. -/
def dbEmpty : DB :=
  { videos := [], transcripts := [], feedback := [], collections := [] }

/-- Fresh-search hit fed to the C1 witness run. -/
def hitV3 : SearchHit :=
  { video_id := "v3", title := none, author := none, url := "u", score := 1,
    snippet := "s", media_path := none, source := none, description := none }

/-- RAG outcome of the C1 witness run. -/
def resC1w : RAGResult :=
  (rag genFixed zeroSimf [hitV3] dbEmpty ("what") 5 []).toOption.getD defaultRAGResult

/-- The search-origin source returned by the C1 witness run. -/
def srcC1w : RAGSource :=
  toRAGSource (hitV3, "search", none)

/-- Database of the C2 counterexample: one bad feedback record under a
similar past query, nothing else. -/
def dbC2 : DB :=
  { videos := [], transcripts := [],
    feedback := [{ query := "q1", query_embedding := some [mkRat 9 10], video_id := "v2",
                   feedback := "bad" }],
    collections := [] }

/-- RAG outcome of the C2 counterexample run. -/
def resC2 : RAGResult :=
  (rag genFixed headSimf [] dbC2 ("other") 5 []).toOption.getD defaultRAGResult

/-- Database of the C4 counterexample: one good feedback record under a
similar past query, so its video id is excluded but never listed. -/
def dbC4 : DB :=
  { videos := [], transcripts := [],
    feedback := [{ query := "q1", query_embedding := some [mkRat 9 10], video_id := "v3",
                   feedback := "good" }],
    collections := [] }

/-- Database of the C4 witness: a collection with liked and disliked
videos plus a query-disliked video. -/
def dbC4w : DB :=
  { videos := [], transcripts := [],
    feedback := [{ query := "q0", query_embedding := some [0], video_id := "va",
                   feedback := "good" },
                 { query := "q0", query_embedding := some [0], video_id := "vb",
                   feedback := "bad" },
                 { query := "q1", query_embedding := some [mkRat 9 10], video_id := "vc",
                   feedback := "bad" }],
    collections := [{ id := "c1", query := "q0" }] }

/-- Store of the C5 counterexample: a duplicated `(q, v)` pair. -/
def dupStore : List FeedbackRecord :=
  [{ query := "q", query_embedding := some [0], video_id := "v", feedback := "good" },
   { query := "q", query_embedding := some [0], video_id := "v", feedback := "good" }]

/-- Store left by the C5 counterexample saves: the second duplicate keeps
its superseded label. -/
def dupStoreAfter : List FeedbackRecord :=
  [{ query := "q", query_embedding := some [0], video_id := "v", feedback := "bad" },
   { query := "q", query_embedding := some [0], video_id := "v", feedback := "good" }]

/-- Intermediate store of the C5 witness. -/
def s1W : List FeedbackRecord :=
  [{ query := "q", query_embedding := some [0], video_id := "v", feedback := "good" }]

/-- Final store of the C5 witness. -/
def s2W : List FeedbackRecord :=
  [{ query := "q", query_embedding := some [0], video_id := "v", feedback := "bad" }]

/-- Store of the C8 witness: two distinct embedded past queries. -/
def storeC8 : List FeedbackRecord :=
  [{ query := "alpha", query_embedding := some [mkRat 95 100], video_id := "va",
     feedback := "good" },
   { query := "beta", query_embedding := some [mkRat 9 10], video_id := "vb",
     feedback := "bad" }]

/-- Database of the C9 witness: one embedded and one unembedded
transcript. -/
def dbC9 : DB :=
  { videos := [{ id := "v1", title := none, author := none, url := "u",
                 source := none, description := none, media_path := none }],
    transcripts := [{ video_id := "v1", text := some ("txt"), embedding := some [1] },
                    { video_id := "v2", text := none, embedding := none }],
    feedback := [], collections := [] }

/-- ANN outcome of the C9 witness run. -/
def resC9 : List Candidate :=
  (annSearch headSimf dbC9 10 false false).toOption.getD []

/-- Store of the C10 witness: six distinct queries above the similarity
threshold, the first matching the input text. -/
def storeC10 : List FeedbackRecord :=
  [{ query := "q1", query_embedding := some [mkRat 99 100], video_id := "v1", feedback := "good" },
   { query := "q2", query_embedding := some [mkRat 98 100], video_id := "v2", feedback := "good" },
   { query := "q3", query_embedding := some [mkRat 97 100], video_id := "v3", feedback := "good" },
   { query := "q4", query_embedding := some [mkRat 96 100], video_id := "v4", feedback := "good" },
   { query := "q5", query_embedding := some [mkRat 95 100], video_id := "v5", feedback := "good" },
   { query := "q6", query_embedding := some [mkRat 94 100], video_id := "v6", feedback := "good" }]

/- ============================================================
   Helper lemmas
   ============================================================ -/

/-- On a non-empty batch the success path of the reranker scores every
document and stable-sorts by descending score. -/
theorem rerank_true_eq (ms : String → String → ℚ) (q : String) (docs : List Doc) :
    rerank true ms q docs = List.insertionSort descLe (docs.map (scoreAttach ms q)) := by
  cases docs with
  | nil => rfl
  | cons d t => simp [rerank]

/-- The fallback path of the reranker maps `setdefault` over the batch. -/
theorem rerank_false_eq (ms : String → String → ℚ) (q : String) (docs : List Doc) :
    rerank false ms q docs =
      docs.map (fun d => { d with rerank_score := some (d.rerank_score.getD 0) }) := by
  cases docs with
  | nil => rfl
  | cons d t => simp [rerank]

/- ============================================================
   C3: reranker failure falls back to ANN order with zero scores
   ============================================================ -/

/-- C3 (confirmed): for every query and every non-empty batch of
documents that do not yet carry a rerank score (the shape every caller
passes, cf. `search_videos` lines 168-180), a failing pairwise model does
not fail the request: `rerank` returns the batch in the original input
order with `rerank_score = 0.0` attached to every document. -/
theorem c3_fallback_order_and_scores (ms : String → String → ℚ) (q : String)
    (docs : List Doc) (hne : docs ≠ [])
    (hnone : ∀ d ∈ docs, d.rerank_score = none) :
    rerank false ms q docs = docs.map (fun d => { d with rerank_score := some 0 }) := by
  rw [rerank_false_eq]
  exact List.map_congr_left (fun d hd => by simp [hnone d hd])

/-- Witness for C3 at a one-document batch. -/
theorem c3_fallback_order_and_scores_witness :
    ([docN] ≠ [] ∧ ∀ d ∈ [docN], d.rerank_score = none) ∧
      rerank false msZero ("q") [docN] = [docN].map (fun d => { d with rerank_score := some 0 }) :=
  ⟨⟨by decide, by decide⟩,
   c3_fallback_order_and_scores msZero ("q") [docN] (by decide) (by decide)⟩

/- ============================================================
   C6: reranked batch sorted descending, ties stable
   ============================================================ -/

/-- C6 (confirmed): on every non-empty candidate batch the successful
reranker returns a permutation of the scored documents sorted by
`rerank_score` descending, and any two documents with equal scores keep
their original (ANN) relative order: Python `sorted` is stable, and so
is the modelling `insertionSort`. -/
theorem c6_rerank_sorted_stable (ms : String → String → ℚ) (q : String)
    (docs : List Doc) (hne : docs ≠ []) :
    (rerank true ms q docs).Sorted descLe ∧
      (rerank true ms q docs).Perm (docs.map (scoreAttach ms q)) ∧
      ∀ a b : Doc, scoreOf a = scoreOf b → List.Sublist [a, b] (docs.map (scoreAttach ms q)) →
        List.Sublist [a, b] (rerank true ms q docs) := by
  rw [rerank_true_eq]
  refine ⟨List.sorted_insertionSort descLe _, List.perm_insertionSort descLe _, ?_⟩
  intro a b hab hsub
  exact List.pair_sublist_insertionSort (le_of_eq hab.symm) hsub

/-- Witness for C6 at a concrete two-document batch. -/
theorem c6_rerank_sorted_stable_witness :
    docsC6 ≠ [] ∧
      ((rerank true msLen ("q") docsC6).Sorted descLe ∧
        (rerank true msLen ("q") docsC6).Perm (docsC6.map (scoreAttach msLen ("q"))) ∧
        ∀ a b : Doc, scoreOf a = scoreOf b → List.Sublist [a, b] (docsC6.map (scoreAttach msLen ("q"))) →
          List.Sublist [a, b] (rerank true msLen ("q") docsC6)) :=
  ⟨by decide, c6_rerank_sorted_stable msLen ("q") docsC6 (by decide)⟩

/- ============================================================
   C7: softmax sums to one and preserves descending order
   ============================================================ -/

/-- Summation of a constant-denominator map, used for the softmax sum. -/
theorem sum_map_div (xs : List ℝ) (c : ℝ) :
    (xs.map (fun x => x / c)).sum = xs.sum / c := by
  induction xs with
  | nil => simp
  | cons a t ih => simp [ih, add_div]

/-- C7 (confirmed, over the real-number idealisation of Python floats):
for every non-empty batch the softmax-normalised scores sum to `1` (hence
lie within the stated `1e-6` tolerance), and normalisation preserves
descending score order, `exp` being strictly monotone and the
normalising denominator positive. -/
theorem c7_softmax_sum_and_order (l : List ℝ) (hne : l ≠ []) :
    |(softmax Real.exp l).sum - 1| ≤ 1 / 1000000 ∧
      (l.Sorted (fun a b : ℝ => b ≤ a) →
        (softmax Real.exp l).Sorted (fun a b : ℝ => b ≤ a)) := by
  have hmapne : l.map Real.exp ≠ [] := by
    simpa using hne
  have hS : 0 < (l.map Real.exp).sum := by
    refine List.sum_pos _ (fun x hx => ?_) hmapne
    obtain ⟨y, _, rfl⟩ := List.mem_map.mp hx
    exact Real.exp_pos y
  constructor
  · have hsum : (softmax Real.exp l).sum = 1 := by
      have hmm : softmax Real.exp l =
          (l.map Real.exp).map (fun x => x / (l.map Real.exp).sum) := by
        simp [softmax, List.map_map, Function.comp]
      rw [hmm, sum_map_div, div_self hS.ne']
    rw [hsum]
    norm_num
  · intro hsort
    refine List.Pairwise.map _ (fun a b hab => ?_) hsort
    exact (div_le_div_iff_of_pos_right hS).mpr (Real.exp_le_exp.mpr hab)

/-- Witness for C7 at the one-element batch `[0]`. -/
theorem c7_softmax_sum_and_order_witness :
    (([0] : List ℝ) ≠ []) ∧
      (|(softmax Real.exp ([0] : List ℝ)).sum - 1| ≤ 1 / 1000000 ∧
        (([0] : List ℝ).Sorted (fun a b : ℝ => b ≤ a) →
          (softmax Real.exp ([0] : List ℝ)).Sorted (fun a b : ℝ => b ≤ a))) :=
  ⟨by simp, c7_softmax_sum_and_order [0] (by simp)⟩

/- ============================================================
   C5: feedback upsert semantics
   ============================================================ -/

/-- Filtering for a pair distributes over store concatenation. -/
theorem pairRecords_append (s t : List FeedbackRecord) (q v : String) :
    pairRecords (s ++ t) q v = pairRecords s q v ++ pairRecords t q v := by
  simp [pairRecords, List.filter_append]

/-- Effect of the first-match update on the records of the pair: the head of
the filtered list is relabelled, the rest is untouched. -/
theorem pairRecords_updateFirstPair (q v fb : String) (emb : List ℚ)
    (store : List FeedbackRecord) :
    pairRecords (updateFirstPair q v fb emb store) q v =
      match pairRecords store q v with
      | [] => []
      | r :: rest => { r with feedback := fb, query_embedding := some emb } :: rest := by
  induction store with
  | nil => rfl
  | cons a t ih =>
    by_cases h : (a.query == q && a.video_id == v) = true
    · simp [updateFirstPair, pairRecords, h]
    · simp only [updateFirstPair, h, Bool.false_eq_true, if_false, pairRecords,
        List.filter_cons_of_neg, ih]
      simp [pairRecords] at ih ⊢
      simp [List.filter_cons, h, ih]

/-- C5 (corrected): starting from any store holding at most one record
for the pair `(q, v)` — the only states the feedback API itself can
produce — saving `good` and then `bad` for `(q, v)` leaves exactly one
record for the pair, relabelled `bad` and carrying the fresh embedding:
the second save supersedes the first (upsert, not append). -/
theorem c5_upsert (embed : String → List ℚ) (store : List FeedbackRecord) (q v : String)
    (s1 s2 : List FeedbackRecord)
    (hinv : (pairRecords store q v).length ≤ 1)
    (h1 : save_feedback embed store q v ("good") = .ok s1)
    (h2 : save_feedback embed s1 q v ("bad") = .ok s2) :
    pairRecords s2 q v =
      [{ query := q, query_embedding := some (embed q), video_id := v, feedback := "bad" }] := by
  rcases hpr : pairRecords store q v with _ | ⟨r, rest⟩
  · rw [save_feedback] at h1
    simp [hpr] at h1
    have hs1 : pairRecords s1 q v =
        [{ query := q, query_embedding := some (embed q), video_id := v, feedback := "good" }] := by
      rw [← h1, pairRecords_append, hpr]
      simp [pairRecords]
    rw [save_feedback] at h2
    simp [hs1] at h2
    rw [← h2, pairRecords_updateFirstPair, hs1]
  · have hrest : rest = [] := by
      have hlen := hinv
      rw [hpr] at hlen
      simpa using hlen
    subst hrest
    have hrmem : r ∈ pairRecords store q v := by
      rw [hpr]
      exact List.mem_cons_self r []
    rw [pairRecords] at hrmem
    have hpred := (List.mem_filter.mp hrmem).2
    simp only [Bool.and_eq_true, beq_iff_eq] at hpred
    rw [save_feedback] at h1
    simp [hpr] at h1
    have hs1 : pairRecords s1 q v =
        [{ r with feedback := "good", query_embedding := some (embed q) }] := by
      rw [← h1, pairRecords_updateFirstPair, hpr]
    rw [save_feedback] at h2
    simp [hs1] at h2
    rw [← h2, pairRecords_updateFirstPair, hs1]
    obtain ⟨rq, re, rv, rf⟩ := r
    obtain ⟨hq, hv⟩ := hpred
    simp only at hq hv
    subst hq
    subst hv
    rfl

/-- Counterexample for C5 as stated: from a starting store that already
holds two records for `(q, v)` — a state admitted by the claim wording,
and one the code anticipates (`DISTINCT ON ... ORDER BY created_at DESC`
in `get_retrieval_feedback`) — saving `good` then `bad` updates
only the first match, leaving two records for the pair, one of them still
labelled `good`. -/
theorem c5_duplicate_pair_survives :
    save_feedback embed0 dupStore ("q") "v" "good" = .ok dupStore ∧
      save_feedback embed0 dupStore ("q") "v" "bad" = .ok dupStoreAfter ∧
      (pairRecords dupStoreAfter ("q") "v").map (fun r => r.feedback) = ["bad", "good"] ∧
      (pairRecords dupStoreAfter ("q") "v").length ≠ 1 := by
  decide

/-- Witness for C5 starting from the empty store. -/
theorem c5_upsert_witness :
    ((pairRecords ([] : List FeedbackRecord) "q" "v").length ≤ 1 ∧
        save_feedback embed0 [] "q" "v" "good" = .ok s1W ∧
        save_feedback embed0 s1W ("q") "v" "bad" = .ok s2W) ∧
      pairRecords s2W ("q") "v" =
        [{ query := "q", query_embedding := some (embed0 ("q")), video_id := "v",
           feedback := "bad" }] :=
  ⟨⟨by decide, by decide, by decide⟩,
   c5_upsert embed0 [] "q" "v" s1W s2W (by decide) (by decide) (by decide)⟩

/- ============================================================
   C8: similar-queries contract
   ============================================================ -/

/-- Every selected similarity pair stems from a stored record with a
non-null embedding. -/
theorem mem_simPairs {simf : List ℚ → ℚ} {store : List FeedbackRecord} {p : String × ℚ}
    (hp : p ∈ simPairs simf store) :
    ∃ r ∈ store, ∃ e, r.query_embedding = some e ∧ p = (r.query, simf e) := by
  obtain ⟨r, hr, hf⟩ := List.mem_filterMap.mp hp
  cases he : r.query_embedding with
  | none => rw [he] at hf; simp at hf
  | some e =>
    rw [he] at hf
    have hf2 : some (r.query, simf e) = some p := hf
    exact ⟨r, hr, e, he, (Option.some_inj.mp hf2).symm⟩

/-- Every pair surviving `LIMIT 5` is a stored pair above the
threshold. -/
theorem mem_topFivePairs {simf : List ℚ → ℚ} {store : List FeedbackRecord} {p : String × ℚ}
    (hp : p ∈ topFivePairs simf store) :
    p ∈ simPairs simf store ∧ simThreshold < p.2 := by
  have h1 : p ∈ rankedPairs simf store := List.take_subset 5 _ hp
  have h2 : p ∈ qualifyingPairs simf store :=
    ((List.perm_insertionSort simDescLe _).mem_iff).mp h1
  have h3 := List.mem_dedup.mp h2
  have h4 := List.mem_filter.mp h3
  exact ⟨h4.1, by simpa using h4.2⟩

/-- The five retained pairs are ordered by similarity descending. -/
theorem topFivePairs_sorted (simf : List ℚ → ℚ) (store : List FeedbackRecord) :
    (topFivePairs simf store).Sorted simDescLe :=
  List.Pairwise.sublist (List.take_sublist 5 _) (List.sorted_insertionSort simDescLe _)

/-- The five retained pairs are distinct. -/
theorem topFivePairs_nodup (simf : List ℚ → ℚ) (store : List FeedbackRecord) :
    (topFivePairs simf store).Nodup := by
  have h0 : (qualifyingPairs simf store).Nodup := List.nodup_dedup _
  have h1 : (rankedPairs simf store).Nodup :=
    ((List.perm_insertionSort simDescLe _).symm.nodup) h0
  exact h1.sublist (List.take_sublist 5 _)

/-- C8 (confirmed): provided stored embeddings are a function of the
query text (the source embeds deterministically and refreshes the
embedding on every upsert), `find_similar_queries` returns at most five
entries, the similarity of every entry exceeds `0.85`, no returned
trimmed lower-cased text equals that of the input, entries are ordered by similarity
descending, each entry carries the good/bad video-id sets grouped from
the feedback records of that query, and the returned query texts are
distinct. -/
theorem c8_similar_queries_contract (simf : List ℚ → ℚ) (inputQuery : String)
    (store : List FeedbackRecord)
    (hdet : ∀ r1 ∈ store, ∀ r2 ∈ store, r1.query = r2.query →
      r1.query_embedding = r2.query_embedding) :
    (find_similar_queries simf inputQuery store).length ≤ 5 ∧
      (∀ e ∈ find_similar_queries simf inputQuery store, simThreshold < e.similarity) ∧
      (∀ e ∈ find_similar_queries simf inputQuery store,
        normText e.query ≠ normText inputQuery) ∧
      (find_similar_queries simf inputQuery store).Sorted
        (fun a b => b.similarity ≤ a.similarity) ∧
      (∀ e ∈ find_similar_queries simf inputQuery store,
        e.good_video_ids = goodIds store e.query ∧ e.bad_video_ids = badIds store e.query) ∧
      ((find_similar_queries simf inputQuery store).map (fun e => e.query)).Nodup := by
  rw [find_similar_queries]
  split
  · simp
  · set F := (topFivePairs simf store).filter
      (fun p => !(normText p.1 == normText inputQuery)) with hF
    have hFsub : ∀ p ∈ F, p ∈ topFivePairs simf store := by
      intro p hp
      exact List.mem_of_mem_filter hp
    refine ⟨?_, ?_, ?_, ?_, ?_, ?_⟩
    · rw [List.length_map]
      exact le_trans (List.length_filter_le _ _) (List.length_take_le _ _)
    · intro e he
      obtain ⟨p, hp, rfl⟩ := List.mem_map.mp he
      exact (mem_topFivePairs (hFsub p hp)).2
    · intro e he
      obtain ⟨p, hp, rfl⟩ := List.mem_map.mp he
      have := (List.mem_filter.mp hp).2
      simpa [mkSimilarQuery] using this
    · refine List.Pairwise.map _ (fun a b hab => hab) ?_
      exact List.Pairwise.sublist (List.filter_sublist _) (topFivePairs_sorted simf store)
    · intro e he
      obtain ⟨p, hp, rfl⟩ := List.mem_map.mp he
      exact ⟨rfl, rfl⟩
    · rw [List.map_map]
      have hmapeq : ((fun e : SimilarQuery => e.query) ∘ mkSimilarQuery store) =
          (fun p : String × ℚ => p.1) := rfl
      rw [hmapeq]
      have hFnodup : F.Nodup :=
        (topFivePairs_nodup simf store).sublist (List.filter_sublist _)
      refine hFnodup.map_on ?_
      intro x hx y hy hxy
      obtain ⟨r1, hr1, e1, he1, hx1⟩ := mem_simPairs (mem_topFivePairs (hFsub x hx)).1
      obtain ⟨r2, hr2, e2, he2, hy1⟩ := mem_simPairs (mem_topFivePairs (hFsub y hy)).1
      have hq : r1.query = r2.query := by
        rw [hx1, hy1] at hxy
        exact hxy
      have hemb := hdet r1 hr1 r2 hr2 hq
      rw [he1, he2] at hemb
      have he12 : e1 = e2 := by
        simpa using hemb
      rw [hx1, hy1, hq, he12]

/-- Witness for C8 at a concrete two-query store. -/
theorem c8_similar_queries_contract_witness :
    (∀ r1 ∈ storeC8, ∀ r2 ∈ storeC8, r1.query = r2.query →
        r1.query_embedding = r2.query_embedding) ∧
      ((find_similar_queries headSimf ("other") storeC8).length ≤ 5 ∧
        (∀ e ∈ find_similar_queries headSimf ("other") storeC8,
          simThreshold < e.similarity) ∧
        (∀ e ∈ find_similar_queries headSimf ("other") storeC8,
          normText e.query ≠ normText ("other")) ∧
        (find_similar_queries headSimf ("other") storeC8).Sorted
          (fun a b => b.similarity ≤ a.similarity) ∧
        (∀ e ∈ find_similar_queries headSimf ("other") storeC8,
          e.good_video_ids = goodIds storeC8 e.query ∧
            e.bad_video_ids = badIds storeC8 e.query) ∧
        ((find_similar_queries headSimf ("other") storeC8).map (fun e => e.query)).Nodup) :=
  ⟨by decide, c8_similar_queries_contract headSimf ("other") storeC8 (by decide)⟩

/- ============================================================
   C10: the five-entry cap precedes the exact-text exclusion
   ============================================================ -/

/-- A list with a member failing the filter predicate strictly shrinks
under the filter. -/
theorem length_filter_lt_of_mem {α : Type} (p : α → Bool) (l : List α) (a : α)
    (ha : a ∈ l) (hpa : p a = false) : (l.filter p).length < l.length := by
  induction l with
  | nil => cases ha
  | cons b t ih =>
    rcases List.mem_cons.mp ha with h | h
    · subst h
      simp only [List.filter_cons, hpa, Bool.false_eq_true, if_false, List.length_cons]
      exact Nat.lt_succ_of_le (List.length_filter_le p t)
    · by_cases hb : p b = true
      · simpa [List.filter_cons, hb] using Nat.succ_lt_succ (ih h)
      · rw [List.filter_cons, if_neg hb, List.length_cons]
        exact Nat.lt_succ_of_lt (ih h)

/-- C10 (confirmed): the `LIMIT 5` cap is applied to the similarity-ranked
candidates before the exact-text exclusion, so the endpoint returns the
top-five qualifying pairs with exact matches then removed; whenever the
normalised input text occurs among those five, fewer than five
entries come back even if further qualifying stored queries exist. -/
theorem c10_cap_before_exclusion (simf : List ℚ → ℚ) (inputQuery : String)
    (store : List FeedbackRecord)
    (hq : (inputQuery.data.dropWhile Char.isWhitespace).isEmpty = false)
    (hmem : normText inputQuery ∈ (topFivePairs simf store).map (fun p => normText p.1)) :
    find_similar_queries simf inputQuery store =
      ((topFivePairs simf store).filter
          (fun p => !(normText p.1 == normText inputQuery))).map (mkSimilarQuery store) ∧
      (find_similar_queries simf inputQuery store).length < 5 := by
  have heq : find_similar_queries simf inputQuery store =
      ((topFivePairs simf store).filter
          (fun p => !(normText p.1 == normText inputQuery))).map (mkSimilarQuery store) := by
    rw [find_similar_queries]
    simp [hq]
  refine ⟨heq, ?_⟩
  rw [heq, List.length_map]
  obtain ⟨p, hp, hpe⟩ := List.mem_map.mp hmem
  have hpa : (!(normText p.1 == normText inputQuery)) = false := by
    simp [hpe]
  exact lt_of_lt_of_le (length_filter_lt_of_mem _ _ p hp hpa) (List.length_take_le _ _)

/-- Witness for C10: six stored queries qualify, the input text itself sits
in the top five, and only four entries are returned. -/
theorem c10_cap_before_exclusion_witness :
    ((("Q1" : String).data.dropWhile Char.isWhitespace).isEmpty = false ∧
        normText ("Q1") ∈ (topFivePairs headSimf storeC10).map (fun p => normText p.1) ∧
        6 ≤ (qualifyingPairs headSimf storeC10).length ∧
        (find_similar_queries headSimf ("Q1") storeC10).length = 4) ∧
      (find_similar_queries headSimf ("Q1") storeC10 =
          ((topFivePairs headSimf storeC10).filter
              (fun p => !(normText p.1 == normText ("Q1")))).map (mkSimilarQuery storeC10) ∧
        (find_similar_queries headSimf ("Q1") storeC10).length < 5) :=
  ⟨⟨by decide, by decide, by decide, by decide⟩,
   c10_cap_before_exclusion headSimf ("Q1") storeC10 (by decide) (by decide)⟩

/- ============================================================
   C9: ANN retrieval contract
   ============================================================ -/

/-- C9 (confirmed): ANN retrieval returns at most `k` candidates ordered
by ascending cosine distance with `similarity_score = 1 - ann_distance`,
drawn only from transcripts with a stored embedding; a failing
`SET hnsw.ef_search` statement does not change the outcome, while a
database error aborts the call with a retrieval failure instead of a
silent empty result. -/
theorem c9_ann_contract (dist : List ℚ → ℚ) (db : DB) (k : ℕ) (ef1 ef2 : Bool)
    (res : List Candidate)
    (hok : annSearch dist db k ef1 false = .ok res) :
    annSearch dist db k ef1 false = annSearch dist db k ef2 false ∧
      annSearch dist db k ef1 true = .error ("Database search failed") ∧
      res.length ≤ k ∧
      res.Sorted distAscLe ∧
      (∀ c ∈ res, c.similarity_score = 1 - c.ann_distance) ∧
      (∀ c ∈ res, ∃ t ∈ db.transcripts, t.video_id = c.video_id ∧ t.embedding ≠ none) := by
  have hres : res = (List.insertionSort distAscLe ((annRows db).map (mkCandidate dist))).take k := by
    rw [annSearch] at hok
    cases ef1 <;> simpa using hok.symm
  refine ⟨by cases ef1 <;> cases ef2 <;> rfl, by rw [annSearch]; simp, ?_, ?_, ?_, ?_⟩
  · rw [hres]
    exact List.length_take_le k _
  · rw [hres]
    exact List.Pairwise.sublist (List.take_sublist k _) (List.sorted_insertionSort distAscLe _)
  · intro c hc
    rw [hres] at hc
    have h1 : c ∈ List.insertionSort distAscLe ((annRows db).map (mkCandidate dist)) :=
      List.take_subset k _ hc
    have h2 : c ∈ (annRows db).map (mkCandidate dist) :=
      ((List.perm_insertionSort distAscLe _).mem_iff).mp h1
    obtain ⟨r, _, rfl⟩ := List.mem_map.mp h2
    rfl
  · intro c hc
    rw [hres] at hc
    have h1 : c ∈ List.insertionSort distAscLe ((annRows db).map (mkCandidate dist)) :=
      List.take_subset k _ hc
    have h2 : c ∈ (annRows db).map (mkCandidate dist) :=
      ((List.perm_insertionSort distAscLe _).mem_iff).mp h1
    obtain ⟨r, hr, rfl⟩ := List.mem_map.mp h2
    obtain ⟨t, ht, hfa⟩ := List.mem_filterMap.mp hr
    refine ⟨t, ht, ?_, ?_⟩
    · cases he : t.embedding with
      | none => rw [he] at hfa; simp at hfa
      | some e =>
        rw [he] at hfa
        cases hv : lookupVideo db t.video_id with
        | none => rw [hv] at hfa; simp at hfa
        | some v =>
          rw [hv] at hfa
          have hfa2 : some (t, v, e) = some r := hfa
          have := Option.some_inj.mp hfa2
          rw [← this]
          rfl
    · cases he : t.embedding with
      | none => rw [he] at hfa; simp at hfa
      | some e => simp [he]

/-- Witness for C9 on a two-transcript database, one transcript without an
embedding. -/
theorem c9_ann_contract_witness :
    (annSearch headSimf dbC9 10 false false = .ok resC9) ∧
      (annSearch headSimf dbC9 10 false false = annSearch headSimf dbC9 10 true false ∧
        annSearch headSimf dbC9 10 false true = .error ("Database search failed") ∧
        resC9.length ≤ 10 ∧
        resC9.Sorted distAscLe ∧
        (∀ c ∈ resC9, c.similarity_score = 1 - c.ann_distance) ∧
        (∀ c ∈ resC9, ∃ t ∈ dbC9.transcripts, t.video_id = c.video_id ∧ t.embedding ≠ none)) :=
  ⟨rfl, c9_ann_contract headSimf dbC9 10 false true resC9 rfl⟩

/- ============================================================
   C1: exclusion set versus returned sources
   ============================================================ -/

/-- Collection-derived sources always carry the `collection` tag. -/
theorem mem_sourcesFromCollections_type {db : DB} {liked : List (String × String)}
    {p : SearchHit × String × Option String} (hp : p ∈ sourcesFromCollections db liked) :
    p.2.1 = "collection" := by
  obtain ⟨a, _, hfa⟩ := List.mem_filterMap.mp hp
  cases hv : lookupVideo db a.1 with
  | none => rw [hv] at hfa; simp at hfa
  | some v =>
    cases ht : lookupTranscript db a.1 with
    | none => rw [hv, ht] at hfa; simp at hfa
    | some t =>
      rw [hv, ht] at hfa
      have hfa2 : some (mkFeedbackHit v t, "collection", some a.2) = some p := hfa
      rw [← Option.some_inj.mp hfa2]

/-- Query-feedback-derived sources always carry the `feedback` tag. -/
theorem mem_sourcesFromQueries_type {db : DB} {liked : List (String × String)}
    {likedQ : List String} {p : SearchHit × String × Option String}
    (hp : p ∈ sourcesFromQueries db liked likedQ) :
    p.2.1 = "feedback" := by
  obtain ⟨a, _, hfa⟩ := List.mem_filterMap.mp hp
  cases hv : lookupVideo db a with
  | none => rw [hv] at hfa; simp at hfa
  | some v =>
    cases ht : lookupTranscript db a with
    | none => rw [hv, ht] at hfa; simp at hfa
    | some t =>
      rw [hv, ht] at hfa
      have hfa2 : some (mkFeedbackHit v t, "feedback", some ("similar_query")) = some p := hfa
      rw [← Option.some_inj.mp hfa2]

/-- C1 amended (the claim as stated is refuted by
`c1_sources_meet_exclusions`): in every successful RAG response the
fresh-search portion of the source list is disjoint from the exclusion
set — every source tagged `search` survived the step-3 filter, so its
video id lies outside `exclude_video_ids`.  Sources tagged `collection`
or `feedback` are, by design, drawn from the liked part of that very
exclusion set. -/
theorem c1_search_sources_disjoint (gen : String → String) (simf : List ℚ → ℚ)
    (hits : List SearchHit) (db : DB) (query : String) (k : ℕ) (ids : List String)
    (r : RAGResult) (hok : rag gen simf hits db query k ids = .ok r) :
    ∀ s ∈ r.sources, s.source_type = "search" →
      s.video_id ∉ excludeIdsOf simf db query ids := by
  rw [rag] at hok
  split at hok
  · simp at hok
  · split at hok
    · have hr := Option.some_inj.mp (congrArg Except.toOption hok)
      intro s hs
      rw [← hr] at hs
      simp at hs
    · have hr := Option.some_inj.mp (congrArg Except.toOption hok)
      intro s hs hst
      rw [← hr] at hs
      simp only [List.mem_map] at hs
      obtain ⟨p, hp, rfl⟩ := hs
      have hpall : p ∈ allSourcesOf db hits (likedFromCollections db ids)
          (likedFromQueries (simqsOf simf db query)) (excludeIdsOf simf db query ids) := by
        rw [topSourcesOf] at hp
        exact List.take_subset k _ hp
      have hst2 : p.2.1 = "search" := hst
      rcases List.mem_append.mp hpall with hcase | hlast
      · rcases List.mem_append.mp hcase with h1 | h2
        · rw [mem_sourcesFromCollections_type h1] at hst2
          exact absurd hst2 (by decide)
        · rw [mem_sourcesFromQueries_type h2] at hst2
          exact absurd hst2 (by decide)
      · obtain ⟨h, hh, rfl⟩ := List.mem_map.mp hlast
        have hfil := (List.mem_filter.mp hh).2
        have hfil2 : (excludeIdsOf simf db query ids).contains h.video_id = false := by
          simpa using hfil
        simpa using hfil2

/-- Counterexample for C1 as stated: with one similar collection holding a
good judgment for `v1`, the RAG response returns `v1` as a source (tagged
`collection`, score `1.0`) although `v1` belongs to the step-2 exclusion
set — the final source list is not disjoint from the exclusion set. -/
theorem c1_sources_meet_exclusions :
    rag genFixed zeroSimf [] dbC1 ("what") 5 ["c1"] = .ok resC1 ∧
      resC1.sources.map (fun s => (s.video_id, s.source_type)) = [("v1", "collection")] ∧
      "v1" ∈ excludeIdsOf zeroSimf dbC1 ("what") ["c1"] :=
  ⟨rfl, by decide, by decide⟩

/-- Witness for the amended C1 on a run returning one fresh-search
source. -/
theorem c1_search_sources_disjoint_witness :
    srcC1w.video_id ∉ excludeIdsOf zeroSimf dbEmpty ("what") [] :=
  c1_search_sources_disjoint genFixed zeroSimf [hitV3] dbEmpty ("what") 5 [] resC1w rfl
    srcC1w (by decide) (by decide)

/- ============================================================
   C2: empty-result terminal state
   ============================================================ -/

/-- C2 amended (the claim as stated is refuted by
`c2_terminal_keeps_excluded_list`): whenever the merged source list is
empty — in particular when the exclusion-filtered fresh search is empty
and no feedback-origin sources exist — the orchestrator skips generation
and returns the fixed no-information answer with an empty source list and
with the excluded-videos transparency list as computed in step 2, which
need not be empty. -/
theorem c2_empty_terminal (gen : String → String) (simf : List ℚ → ℚ)
    (hits : List SearchHit) (db : DB) (query : String) (k : ℕ) (ids : List String)
    (r : RAGResult) (hok : rag gen simf hits db query k ids = .ok r)
    (hfil : filteredHits hits (excludeIdsOf simf db query ids) = [])
    (hcol : sourcesFromCollections db (likedFromCollections db ids) = [])
    (hqry : sourcesFromQueries db (likedFromCollections db ids)
      (likedFromQueries (simqsOf simf db query)) = []) :
    r.answer = noInfoMessage ∧ r.sources = [] ∧ r.generatorContext = none ∧
      r.excluded_videos = excludedListOf simf db query ids := by
  have hempty : topSourcesOf simf hits db query k ids = [] := by
    rw [topSourcesOf, allSourcesOf, hfil, hcol, hqry]
    simp
  rw [rag] at hok
  split at hok
  · simp at hok
  · rw [hempty] at hok
    have hr := Option.some_inj.mp (congrArg Except.toOption hok)
    rw [← hr]
    exact ⟨rfl, rfl, rfl, rfl⟩

/-- Counterexample for C2 as stated: one bad judgment under a similar
past query makes the terminal response carry a non-empty excluded-videos
list even though sources are empty and generation is skipped. -/
theorem c2_terminal_keeps_excluded_list :
    rag genFixed headSimf [] dbC2 ("other") 5 [] = .ok resC2 ∧
      resC2.answer = noInfoMessage ∧ resC2.sources = [] ∧ resC2.generatorContext = none ∧
      resC2.excluded_videos =
        [{ video_id := "v2", title := none, reason := "bad_feedback",
           source_reference := some ("similar_query") }] ∧
      resC2.excluded_videos ≠ [] :=
  ⟨rfl, by decide, by decide, by decide, by decide, by decide⟩

/-- Witness for the amended C2 on the same terminal run. -/
theorem c2_empty_terminal_witness :
    (filteredHits [] (excludeIdsOf headSimf dbC2 ("other") []) = [] ∧
        sourcesFromCollections dbC2 (likedFromCollections dbC2 []) = [] ∧
        sourcesFromQueries dbC2 (likedFromCollections dbC2 [])
          (likedFromQueries (simqsOf headSimf dbC2 ("other"))) = []) ∧
      (resC2.answer = noInfoMessage ∧ resC2.sources = [] ∧ resC2.generatorContext = none ∧
        resC2.excluded_videos = excludedListOf headSimf dbC2 ("other") []) :=
  ⟨⟨by decide, by decide, by decide⟩,
   c2_empty_terminal genFixed headSimf [] dbC2 ("other") 5 [] resC2 rfl (by decide) (by decide)
     (by decide)⟩

/- ============================================================
   C4: excluded-videos transparency list
   ============================================================ -/

/-- C4 amended (the claim as stated is refuted by
`c4_liked_query_missing_from_list`): the transparency list carries an
entry for every collection-liked id (reason `liked_in_collection`), every
collection-disliked id (reason `disliked_in_collection`) and every
query-disliked id not already disliked through a collection (reason
`bad_feedback`, provenance `similar_query`), each with its provenance
reference; ids that are only in `liked_from_queries` — although part of
the step-2 exclusion set — receive no entry. -/
theorem c4_transparency_coverage (simf : List ℚ → ℚ) (db : DB) (query : String)
    (ids : List String) :
    (∀ p ∈ likedFromCollections db ids,
        ({ video_id := p.1, title := titleOf db p.1, reason := "liked_in_collection",
           source_reference := some p.2 } : ExcludedVideo) ∈
          excludedListOf simf db query ids) ∧
      (∀ p ∈ dislikedFromCollections db ids,
        ({ video_id := p.1, title := titleOf db p.1, reason := "disliked_in_collection",
           source_reference := some p.2 } : ExcludedVideo) ∈
          excludedListOf simf db query ids) ∧
      (∀ v ∈ dislikedFromQueries (simqsOf simf db query),
        (∀ p ∈ dislikedFromCollections db ids, p.1 ≠ v) →
          ({ video_id := v, title := titleOf db v, reason := "bad_feedback",
             source_reference := some ("similar_query") } : ExcludedVideo) ∈
            excludedListOf simf db query ids) := by
  refine ⟨?_, ?_, ?_⟩
  · intro p hp
    rw [excludedListOf]
    exact List.mem_append_left _ (List.mem_append_left _ (List.mem_map_of_mem _ hp))
  · intro p hp
    rw [excludedListOf]
    exact List.mem_append_left _ (List.mem_append_right _ (List.mem_map_of_mem _ hp))
  · intro v hv hnc
    rw [excludedListOf]
    have hpred : (!((dislikedFromCollections db ids).any (fun p => p.1 == v))) = true := by
      simp only [Bool.not_eq_true', List.any_eq_false]
      intro p hp
      simpa using hnc p hp
    exact List.mem_append_right _
      (List.mem_map_of_mem _ (List.mem_filter.mpr ⟨hv, hpred⟩))

/-- Counterexample for C4 as stated: a video liked under a similar past
query is in the step-2 exclusion set, yet the transparency list is
empty. -/
theorem c4_liked_query_missing_from_list :
    "v3" ∈ excludeIdsOf headSimf dbC4 ("other") [] ∧
      excludedListOf headSimf dbC4 ("other") [] = [] := by
  decide

/-- Witness for the amended C4 covering all three reasons on one
database. -/
theorem c4_transparency_coverage_witness :
    ({ video_id := "va", title := titleOf dbC4w ("va"), reason := "liked_in_collection",
       source_reference := some ("q0") } : ExcludedVideo) ∈
        excludedListOf headSimf dbC4w ("other") ["c1"] ∧
      ({ video_id := "vb", title := titleOf dbC4w ("vb"), reason := "disliked_in_collection",
         source_reference := some ("q0") } : ExcludedVideo) ∈
        excludedListOf headSimf dbC4w ("other") ["c1"] ∧
      ({ video_id := "vc", title := titleOf dbC4w ("vc"), reason := "bad_feedback",
         source_reference := some ("similar_query") } : ExcludedVideo) ∈
        excludedListOf headSimf dbC4w ("other") ["c1"] :=
  ⟨(c4_transparency_coverage headSimf dbC4w ("other") ["c1"]).1 ("va", "q0") (by decide),
   (c4_transparency_coverage headSimf dbC4w ("other") ["c1"]).2.1 ("vb", "q0") (by decide),
   (c4_transparency_coverage headSimf dbC4w ("other") ["c1"]).2.2 ("vc") (by decide) (by decide)⟩
